import Mathlib

/-!
Shallow embedding of the adaptive prompt-generation core of the
`anatomie-prompt-generator` repository (files `app/llm_agent.py` and
`app/preferences.py`).

Python floats are modelled as rationals (`ℚ`), Python dicts keyed by strings
as association lists, and the stateful `random.Random` source as an explicit
stream of outcomes: a list of rationals consumed by `random()` and a list of
naturals consumed by `choice`/`choices` index draws.  Fallible code returns
`Except String`.  All definitions are translated from the source.
-/

attribute [local semireducible] Rat.add Rat.mul Rat.inv Rat.sub

/-- A random source: `floats` are the values successively returned by
`rng.random()` (each expected in `[0,1)`); `indices` are the raw index draws
consumed by `rng.choice` (reduced modulo the pool size). -/
structure Rng where
  floats : List ℚ
  indices : List Nat
deriving Repr, DecidableEq

/-- `rng.random()`: consume one float from the stream (0 when exhausted). -/
def Rng.randomDraw : Rng → ℚ × Rng
  | ⟨f :: fs, cs⟩ => (f, ⟨fs, cs⟩)
  | ⟨[], cs⟩ => (0, ⟨[], cs⟩)

/-- Consume one raw index draw from the stream (0 when exhausted). -/
def Rng.indexDraw : Rng → Nat × Rng
  | ⟨fs, c :: cs⟩ => (c, ⟨fs, cs⟩)
  | ⟨fs, []⟩ => (0, ⟨fs, []⟩)

/-- `rng.choice(seq)`: uniform element of a non-empty sequence; raises
(`IndexError`) on an empty one. -/
def rngChoice {α : Type} (l : List α) (r : Rng) : Except String (α × Rng) :=
  match l with
  | [] => .error "Cannot choose from an empty sequence"
  | x :: xs =>
    let (i, r1) := r.indexDraw
    .ok ((x :: xs).getD (i % (xs.length + 1)) x, r1)

/-- One record of the `designers` pool (`{id, name, style}`). -/
structure Designer where
  id : String
  name : String
  style : List String
deriving Repr, DecidableEq

/-- One record of the `colors` pool (`{id, name}`). -/
structure Color where
  id : String
  name : String
deriving Repr, DecidableEq

/-- One garment record; the three attribute sequences default to `[]` as the
Python code coalesces missing fields with `or []`. -/
structure Garment where
  id : String
  name : String
  primary_design_elements : List String
  technical_features : List String
  premium_constructions : List String
deriving Repr, DecidableEq

/-- One prompt-structure record; numeric fields carry the value after the
Python `float(... or 0)` coalescing. -/
structure PromptStructure where
  id : String
  skeleton : String
  outlier_count : ℚ
  usage_count : ℚ
  avg_rating : ℚ
  z_score : ℚ
  age_weeks : ℚ
  ai_critique : String
  renderer : String
deriving Repr, DecidableEq

/-- One entry of a structure's `top_prompts` insight list. -/
structure PromptInsight where
  prompt_preview : String
  success_rate : ℚ
deriving Repr, DecidableEq

/-- Per-structure prompt insight payload (`{top_prompts, avg_success_rate}`). -/
structure StructureInsight where
  top_prompts : List PromptInsight
  avg_success_rate : ℚ
deriving Repr, DecidableEq

/-- Stable insertion of a key/value pair into a list sorted descending by
value: the new element goes after existing elements with a value `≥` its own,
mirroring the stability of Python's `sorted(..., reverse=True)`. -/
def insertDescByValue {α : Type} (x : α × ℚ) : List (α × ℚ) → List (α × ℚ)
  | [] => [x]
  | y :: ys => if y.2 ≤ x.2 then x :: y :: ys else y :: insertDescByValue x ys

/-- Stable descending sort by the second component, the embedding of Python's
`sorted(items, key=lambda x: x[1], reverse=True)`. -/
def sortDescByValue {α : Type} : List (α × ℚ) → List (α × ℚ)
  | [] => []
  | x :: xs => insertDescByValue x (sortDescByValue xs)

/-- The `PreferenceAdapter` state (`app/preferences.py`).  `last_updated` is
`none` at construction and `some t` after `update`/`clear` stamp it with the
current time `t` (timestamps are modelled as rationals). -/
structure PreferenceAdapter where
  preferences : List (String × ℚ)
  exploration_rate : ℚ
  structure_scores : List (String × ℚ)
  structure_prompt_insights : List (String × StructureInsight)
  last_updated : Option ℚ
  exploration_count : Nat
  exploitation_count : Nat
deriving Repr, DecidableEq

/-- `PreferenceAdapter.__init__`. -/
def PreferenceAdapter.init : PreferenceAdapter :=
  { preferences := []
    exploration_rate := 1/5
    structure_scores := []
    structure_prompt_insights := []
    last_updated := none
    exploration_count := 0
    exploitation_count := 0 }

/-- `PreferenceAdapter.update`: replaces `preferences` (sorted descending)
unconditionally, clamps a supplied `exploration_rate` into `[0,1]`, replaces
`structure_scores` (sorted descending) and insights only when supplied, and
stamps `last_updated` with the current time. -/
def PreferenceAdapter.update (s : PreferenceAdapter) (prefs : List (String × ℚ))
    (rate? : Option ℚ) (scores? : Option (List (String × ℚ)))
    (insights? : Option (List (String × StructureInsight))) (now : ℚ) :
    PreferenceAdapter :=
  { s with
    preferences := sortDescByValue prefs
    exploration_rate :=
      match rate? with
      | some r => max 0 (min 1 r)
      | none => s.exploration_rate
    structure_scores :=
      match scores? with
      | some sc => sortDescByValue sc
      | none => s.structure_scores
    structure_prompt_insights := insights?.getD s.structure_prompt_insights
    last_updated := some now }

/-- `PreferenceAdapter.clear`: empties the mappings, restores the default
exploration rate `0.2`, zeroes both counters, and stamps `last_updated`. -/
def PreferenceAdapter.clear (_s : PreferenceAdapter) (now : ℚ) : PreferenceAdapter :=
  { preferences := []
    exploration_rate := 1/5
    structure_scores := []
    structure_prompt_insights := []
    last_updated := some now
    exploration_count := 0
    exploitation_count := 0 }

/-- `has_preferences` property: `len(self._preferences) > 0`. -/
def PreferenceAdapter.has_preferences (s : PreferenceAdapter) : Bool :=
  !s.preferences.isEmpty

/-- `has_structure_scores` property: `len(self._structure_scores) > 0`. -/
def PreferenceAdapter.has_structure_scores (s : PreferenceAdapter) : Bool :=
  !s.structure_scores.isEmpty

/-- `should_explore`: draw one uniform value, explore iff it is strictly below
the exploration rate, and bump the matching counter. -/
def PreferenceAdapter.should_explore (s : PreferenceAdapter) (r : Rng) :
    Bool × PreferenceAdapter × Rng :=
  let (u, r1) := r.randomDraw
  if u < s.exploration_rate then
    (true, { s with exploration_count := s.exploration_count + 1 }, r1)
  else
    (false, { s with exploitation_count := s.exploitation_count + 1 }, r1)

/-- `reset_exploration_stats`: zero both counters, touching nothing else. -/
def PreferenceAdapter.reset_exploration_stats (s : PreferenceAdapter) :
    PreferenceAdapter :=
  { s with exploration_count := 0, exploitation_count := 0 }

/-- Round a rational to the nearest integer, halves to even — the behaviour of
Python's `round`. -/
def roundHalfToEven (x : ℚ) : ℤ :=
  let f := ⌊x⌋
  let frac := x - f
  if frac < 1/2 then f
  else if 1/2 < frac then f + 1
  else if f % 2 = 0 then f else f + 1

/-- `round(x, 4)`: round to four decimal places, halves to even. -/
def roundTo4 (x : ℚ) : ℚ :=
  (roundHalfToEven (x * 10000) : ℚ) / 10000

/-- The record returned by `get_exploration_stats`. -/
structure ExplorationStats where
  exploration_count : Nat
  exploitation_count : Nat
  total_decisions : Nat
  actual_exploration_rate : ℚ
  configured_exploration_rate : ℚ
deriving Repr, DecidableEq

/-- `get_exploration_stats`: totals the two counters and reports the realised
exploration ratio, rounded to 4 places, or `0` when no decision was taken. -/
def PreferenceAdapter.get_exploration_stats (s : PreferenceAdapter) :
    ExplorationStats :=
  let total := s.exploration_count + s.exploitation_count
  { exploration_count := s.exploration_count
    exploitation_count := s.exploitation_count
    total_decisions := total
    actual_exploration_rate :=
      if total > 0 then roundTo4 ((s.exploration_count : ℚ) / (total : ℚ)) else 0
    configured_exploration_rate := s.exploration_rate }

/-- `rank_structures` score lookup: stored score, defaulting to `0.5`. -/
def lookupScore (scores : List (String × ℚ)) (sid : String) : ℚ :=
  match scores.find? (fun p => p.1 == sid) with
  | some p => p.2
  | none => 1/2

/-- `rank_structures`: pair every id with its (defaulted) score and sort
descending by score. -/
def PreferenceAdapter.rank_structures (s : PreferenceAdapter)
    (structure_ids : List String) : List (String × ℚ) :=
  sortDescByValue (structure_ids.map (fun sid => (sid, lookupScore s.structure_scores sid)))

/-- The fixed attribute-to-adjective allow-list of `get_weighted_adjectives`. -/
def adjective_map : List (String × String) :=
  [("oversized", "oversized"), ("tailored", "tailored"), ("relaxed_fit", "relaxed"),
   ("slim_fit", "slim"), ("cropped", "cropped"), ("elongated", "elongated"),
   ("boxy", "boxy"), ("fitted", "fitted"), ("flowy", "flowy"),
   ("structured", "structured"), ("minimalist", "minimalist"),
   ("earth_tones", "earth-toned"), ("monochromatic", "monochromatic"),
   ("tonal", "tonal"), ("muted", "muted"), ("neutral", "neutral"),
   ("luxe_hand", "luxurious"), ("refined_casual", "refined"),
   ("elevated_basic", "elevated"), ("travel_ready", "travel-ready"),
   ("versatile", "versatile"), ("lightweight", "lightweight"),
   ("drapey", "draped"), ("crisp", "crisp")]

/-- `get_weighted_adjectives`: map preferred attributes through the allow-list,
keep those with weight `> 0.4`, sorted descending by weight. -/
def PreferenceAdapter.get_weighted_adjectives (s : PreferenceAdapter) :
    List (String × ℚ) :=
  if s.preferences.isEmpty then []
  else
    sortDescByValue (s.preferences.filterMap (fun p =>
      match adjective_map.find? (fun a => a.1 == p.1) with
      | some a => if p.2 > (2/5 : ℚ) then some (a.2, p.2) else none
      | none => none))

/-- `_select_garment` (`app/llm_agent.py`): the 75%/25% tops/others split.  The
Python condition `tops and (not others or rng.random() < 0.75)` is evaluated
lazily, so the uniform value is drawn only when both pools are non-empty. -/
def select_garment (tops others : List Garment) (r : Rng) :
    Except String (Garment × Rng) :=
  if tops.isEmpty && others.isEmpty then .error "No garments available"
  else
    let cond_r : Bool × Rng :=
      if tops.isEmpty then (false, r)
      else if others.isEmpty then (true, r)
      else (decide (r.randomDraw.1 < 3/4), r.randomDraw.2)
    if cond_r.1 then rngChoice tops cond_r.2
    else rngChoice (if others.isEmpty then tops else others) cond_r.2

/-- `_fallback_structure_score`: the heuristic
`2·outlier + 0.1·usage + 2·rating + 3·z − 0.2·max(0, age−4)`. -/
def fallback_structure_score (s : PromptStructure) : ℚ :=
  s.outlier_count * 2 + s.usage_count * (1/10) + s.avg_rating * 2
    + s.z_score * 3 - max 0 (s.age_weeks - 4) * (1/5)

/-- The weights built from ranked optimizer scores in the exploit branch:
`max(score, 0.1)` per ranked candidate. -/
def scoreWeights (ranked : List (String × ℚ)) : List ℚ :=
  ranked.map (fun p => max p.2 (1/10))

/-- The smallest element of a score list (`min` in Python; `0` on `[]`, where
Python would raise — every caller passes a non-empty list). -/
def listMin : List ℚ → ℚ
  | [] => 0
  | x :: xs => xs.foldl min x

/-- The strictly-positive weights of the fallback-heuristic branch: every raw
heuristic score shifted by `|min| + 0.1` when the minimum is negative, else by
a flat `0.1`. -/
def fallbackWeights (structures : List PromptStructure) : List ℚ :=
  let scores := structures.map fallback_structure_score
  let min_score := listMin scores
  let shift := if min_score < 0 then |min_score| + 1/10 else 1/10
  scores.map (fun sc => sc + shift)

/-- Walk the zipped (item, weight) list with a target value, the way
`random.choices` resolves `bisect(cum_weights, u·total, 0, len−1)`: pick the
first item whose cumulative weight exceeds the target, capped at the last. -/
def pickWeighted {α : Type} : List (α × ℚ) → ℚ → Option α
  | [], _ => none
  | [(x, _)], _ => some x
  | (x, w) :: rest, t => if t < w then some x else pickWeighted rest (t - w)

/-- `rng.choices(population, weights, k=1)[0]`: raises when the weight total is
not positive, otherwise draws one uniform value and resolves it against the
cumulative weights. -/
def rngWeightedChoice {α : Type} (items : List α) (weights : List ℚ) (r : Rng) :
    Except String (α × Rng) :=
  let total := weights.sum
  if total ≤ 0 then .error "Total of weights must be greater than zero"
  else
    let (u, r1) := r.randomDraw
    match pickWeighted (items.zip weights) (u * total) with
    | some x => .ok (x, r1)
    | none => .error "Cannot choose from an empty population"

/-- The `id_to_struct` dictionary lookup: Python dict comprehensions keep the
last record for a duplicated id. -/
def lookupStructById (structures : List PromptStructure) (sid : String) :
    Option PromptStructure :=
  structures.reverse.find? (fun s => s.id == sid)

/-- The fallback tail of `_select_structure`: heuristic scores, positive shift,
normalisation, weighted draw; uniform draw when the weight total is not
positive. -/
def select_structure_fallback (structures : List PromptStructure) (r : Rng) :
    Except String (PromptStructure × Rng) :=
  let weights := fallbackWeights structures
  let total := weights.sum
  if total > 0 then
    let normalized := weights.map (fun w => w / total)
    rngWeightedChoice structures normalized r
  else rngChoice structures r

/-- `_select_structure`: explore branch restricts to young or little-used
structures; exploit branch weights ranked optimizer scores floored at `0.1`
when scores exist, else falls back to the shifted heuristic weights. -/
def select_structure (adapter : PreferenceAdapter)
    (structures : List PromptStructure) (r : Rng) (explore_mode : Bool) :
    Except String (PromptStructure × Rng) :=
  if structures.isEmpty then .error "No prompt structures available"
  else if explore_mode then
    let exploratory := structures.filter (fun s =>
      decide (s.age_weeks < 4) || decide (s.usage_count < 10))
    if !exploratory.isEmpty then rngChoice exploratory r
    else rngChoice structures r
  else if adapter.has_structure_scores then
    let ranked := adapter.rank_structures (structures.map (fun s => s.id))
    let weights := scoreWeights ranked
    let total := weights.sum
    if total > 0 then
      let normalized := weights.map (fun w => w / total)
      let ranked_structs := ranked.filterMap (fun p => lookupStructById structures p.1)
      if !ranked_structs.isEmpty then
        rngWeightedChoice ranked_structs (normalized.take ranked_structs.length) r
      else select_structure_fallback structures r
    else select_structure_fallback structures r
  else select_structure_fallback structures r

/-- `_build_variable_map`: the substitution dictionary derived from one
designer/color/garment combination.  Joining an empty sequence with `", "`
yields `""`, so the Python `if xs else ""` guards collapse. -/
def build_variable_map (designer : Designer) (color : Color) (garment : Garment) :
    List (String × String) :=
  let de := garment.primary_design_elements
  let tf := garment.technical_features
  let pc := garment.premium_constructions
  [("designer", designer.name),
   ("color", color.name),
   ("garmentName", garment.name),
   ("pde1", de.headD ""),
   ("designElements", String.intercalate ", " de),
   ("pcs", String.intercalate ", " pc),
   ("tcs", String.intercalate ", " tf),
   ("premiumConstruction", String.intercalate ", " pc),
   ("technicalConstruction", String.intercalate ", " tf),
   ("premiumConstructions", String.intercalate ", " (pc.take 2)),
   ("technicalConstructions", String.intercalate ", " (tf.take 2))]

/-- Python `str.lower()`, character by character. -/
def pyLower (s : String) : String :=
  String.mk (s.data.map Char.toLower)

/-- The replacer of `_fill_skeleton`: the dedicated spelling requests the
lower-cased color; every other unknown token resolves to the empty string. -/
def lookupVariable (vars : List (String × String)) (key : String) : String :=
  if key = "color.toLowerCase()" then
    pyLower ((((vars.find? (fun p => p.1 == "color")).map (fun p => p.2)).getD ""))
  else ((vars.find? (fun p => p.1 == key)).map (fun p => p.2)).getD ""

/-- Scanner mode while embedding the regex substitution of `_fill_skeleton`:
between placeholders, after a lone dollar, or inside an open placeholder with
the key characters collected so far (in reverse). -/
inductive FillMode : Type
  | plain : FillMode
  | afterDollar : FillMode
  | inVariable : List Char → FillMode
deriving Repr, DecidableEq

/-- One left-to-right pass embedding `re.sub` with pattern
`\x5c$\x5c\x7b([^\x7d]+)\x5c\x7d`: a dollar-brace opens a placeholder, a
closing brace with a non-empty key substitutes the variable, an empty key or a
missing closing brace leaves the text literal. -/
def fillRun (vars : List (String × String)) : List Char → FillMode → List Char
  | [], .plain => []
  | [], .afterDollar => ['$']
  | [], .inVariable acc => '$' :: '{' :: acc.reverse
  | c :: cs, .plain =>
    if c = '$' then fillRun vars cs .afterDollar
    else c :: fillRun vars cs .plain
  | c :: cs, .afterDollar =>
    if c = '{' then fillRun vars cs (.inVariable [])
    else if c = '$' then '$' :: fillRun vars cs .afterDollar
    else '$' :: c :: fillRun vars cs .plain
  | c :: cs, .inVariable acc =>
    if c = '}' then
      match acc with
      | [] => '$' :: '{' :: '}' :: fillRun vars cs .plain
      | _ =>
        (lookupVariable vars (String.mk acc.reverse)).data
          ++ fillRun vars cs .plain
    else fillRun vars cs (.inVariable (c :: acc))

/-- `_fill_skeleton`: substitute every `$\x7b...\x7d` placeholder. -/
def fill_skeleton (skeleton : String) (vars : List (String × String)) :
    String :=
  String.mk (fillRun vars skeleton.data .plain)

/-- Python `str.strip()` on the character list: drop whitespace at both ends. -/
def stripChars (l : List Char) : List Char :=
  ((l.dropWhile Char.isWhitespace).reverse.dropWhile Char.isWhitespace).reverse

/-- Python `str.strip()`. -/
def pyStrip (s : String) : String :=
  String.mk (stripChars s.data)

/-- Python `str.endswith(suffix)`. -/
def pyEndsWith (s suffix : String) : Bool :=
  suffix.data.isSuffixOf s.data

/-- The promptText postcondition of the local path of `_generate_locally`:
strip the substituted skeleton and append `" ---"` unless the stripped text
already ends with `"---"`. -/
def finalize_prompt_text (raw : String) : String :=
  let text := pyStrip raw
  if pyEndsWith text "---" then text else text ++ " ---"

/-- One resolved designer/color/garment/structure combination. -/
structure SamplingContext where
  designer : Designer
  color : Color
  garment : Garment
  prompt_structure : PromptStructure
deriving Repr, DecidableEq

/-- A prompt item as a JSON-ish record: each of the five required keys is
either present with a string value (`some`) or absent (`none`).  Items built
locally always carry all five; items echoed by the generator may not. -/
structure PromptItem where
  promptText : Option String
  designerId : Option String
  garmentId : Option String
  promptStructureId : Option String
  renderer : Option String
deriving Repr, DecidableEq

/-- `REQUIRED_PROMPT_KEYS - prompt.keys()` is empty: all five keys present. -/
def hasRequiredKeys (p : PromptItem) : Bool :=
  p.promptText.isSome && p.designerId.isSome && p.garmentId.isSome
    && p.promptStructureId.isSome && p.renderer.isSome

/-- The adjective-injection step of `_generate_locally`: when preferences are
loaded and the batch exploits, weighted-sample one of the top three weighted
adjectives (using the process-default random source) and add it to the
variable map under `preferenceAdjective`. -/
def injectAdjective (adapter : PreferenceAdapter) (explore_mode : Bool)
    (vars : List (String × String)) (grng : Rng) :
    List (String × String) × Rng :=
  if adapter.has_preferences && !explore_mode then
    let weighted_adjs := adapter.get_weighted_adjectives
    if weighted_adjs.isEmpty then (vars, grng)
    else
      let top_adjs := weighted_adjs.take 3
      let weights := top_adjs.map (fun a => a.2)
      let total := weights.sum
      if total > 0 then
        let normalized := weights.map (fun w => w / total)
        match rngWeightedChoice top_adjs normalized grng with
        | .ok (selected, g1) => (vars ++ [("preferenceAdjective", selected.1)], g1)
        | .error _ => (vars, grng)
      else (vars, grng)
  else (vars, grng)

/-- `_generate_locally`: one prompt item per sampling context, each with the
substituted, stripped, marker-terminated text and the ids of its context. -/
def generate_locally (adapter : PreferenceAdapter)
    (renderer : String) (explore_mode : Bool) :
    List SamplingContext → Rng → List PromptItem × Rng
  | [], grng => ([], grng)
  | ctx :: rest, grng =>
    let vars0 := build_variable_map ctx.designer ctx.color ctx.garment
    let inj := injectAdjective adapter explore_mode vars0 grng
    let text := finalize_prompt_text (fill_skeleton ctx.prompt_structure.skeleton inj.1)
    let item : PromptItem :=
      { promptText := some text
        designerId := some ctx.designer.id
        garmentId := some ctx.garment.id
        promptStructureId := some ctx.prompt_structure.id
        renderer := some renderer }
    let rest1 := generate_locally adapter renderer explore_mode rest inj.2
    (item :: rest1.1, rest1.2)

/-- The `build_contexts` closure of `generate_prompts_with_llm`: draw `count`
sampling contexts (designer, color, garment, structure in that order), all
under one explore flag.  Alongside the contexts it reports the final random
state and, for the explore/exploit audit, the flag used for each context
actually built. -/
def build_contexts (adapter : PreferenceAdapter) (designers : List Designer)
    (colors : List Color) (tops others : List Garment)
    (filtered_structures : List PromptStructure) (explore : Bool) :
    Nat → Rng → Except String (List SamplingContext) × Rng × List Bool
  | 0, r => (.ok [], r, [])
  | n + 1, r =>
    match rngChoice designers r with
    | .error e => (.error e, r, [])
    | .ok dp =>
      match rngChoice colors dp.2 with
      | .error e => (.error e, dp.2, [])
      | .ok cp =>
        match select_garment tops others cp.2 with
        | .error e => (.error e, cp.2, [])
        | .ok gp =>
          match select_structure adapter filtered_structures gp.2 explore with
          | .error e => (.error e, gp.2, [])
          | .ok sp =>
            let ctx : SamplingContext :=
              { designer := dp.1, color := cp.1, garment := gp.1
                prompt_structure := sp.1 }
            let rest := build_contexts adapter designers colors tops others
              filtered_structures explore n sp.2
            match rest.1 with
            | .error e => (.error e, rest.2.1, explore :: rest.2.2)
            | .ok ctxs => (.ok (ctx :: ctxs), rest.2.1, explore :: rest.2.2)

/-- The acceptance loop over one generator response: stop once the target is
reached, silently drop items missing a required key or with a mismatched
renderer, append the rest in order. -/
def acceptItems (target : Nat) (renderer : String) :
    List PromptItem → List PromptItem → List PromptItem
  | accum, [] => accum
  | accum, p :: ps =>
    if accum.length ≥ target then accum
    else if !hasRequiredKeys p then acceptItems target renderer accum ps
    else if p.renderer != some renderer then acceptItems target renderer accum ps
    else acceptItems target renderer (accum ++ [p]) ps

/-- The retry loop of `generate_prompts_with_llm`, with the generator
abstracted as the per-attempt outcome list `responses`: `none` models an
exception anywhere in the attempt (transport failure or malformed JSON),
`some items` models a parsed `prompts` payload.  Fuel counts the attempts
still available (the source fixes the budget at 2).  Besides the result and
final random state, the loop reports the explore flag used for every context
rebuilt to cover a shortfall. -/
def llmLoop (adapter : PreferenceAdapter) (target : Nat) (renderer : String)
    (designers : List Designer) (colors : List Color) (tops others : List Garment)
    (filtered_structures : List PromptStructure) (explore_mode : Bool) :
    Nat → List (Option (List PromptItem)) → List SamplingContext →
    List PromptItem → Rng →
    Except String (List PromptItem) × Rng × List Bool
  | 0, _, _, _, r => (.error "LLM could not return required prompt count", r, [])
  | n + 1, responses, ctxs, accum, r =>
    match responses.headD none with
    | none =>
      llmLoop adapter target renderer designers colors tops others
        filtered_structures explore_mode n responses.tail ctxs accum r
    | some items =>
      let accum1 := acceptItems target renderer accum items
      if accum1.length ≥ target then (.ok (accum1.take target), r, [])
      else
        let remaining_needed := target - accum1.length
        let rebuilt := build_contexts adapter designers colors tops others
          filtered_structures explore_mode remaining_needed r
        match rebuilt.1 with
        | .ok newCtxs =>
          let next := llmLoop adapter target renderer designers colors
            tops others filtered_structures explore_mode n responses.tail
            newCtxs accum1 rebuilt.2.1
          (next.1, next.2.1, rebuilt.2.2 ++ next.2.2)
        | .error _ =>
          let next := llmLoop adapter target renderer designers colors
            tops others filtered_structures explore_mode n responses.tail
            ctxs accum1 rebuilt.2.1
          (next.1, next.2.1, rebuilt.2.2 ++ next.2.2)

/-- The batch-level policy decision of `generate_prompts_with_llm`:
`adapter.should_explore(rng) if adapter.has_preferences else False`, returning
the flag together with the adapter and random-source states after the
decision. -/
def batchDecision (adapter : PreferenceAdapter) (r : Rng) :
    Bool × PreferenceAdapter × Rng :=
  if adapter.has_preferences then adapter.should_explore r
  else (false, adapter, r)

/-- The observable outcome of one `generate_prompts_with_llm` call: the value
returned or error raised, the preference-adapter state after the call, the
final state of the caller-supplied random source, the explore flag used for
every sampling context built during the call, and the batch-level
explore/exploit decision. -/
structure GenOutcome where
  result : Except String (List PromptItem)
  adapter : PreferenceAdapter
  rng : Rng
  trace : List Bool
  explore_mode : Bool
deriving Repr

/-- `generate_prompts_with_llm`: renderer filtering and pool guards, one
batch-level explore/exploit decision, context building, then either the local
fallback (no generator client) or the bounded retry loop against the
generator.  `llm_client = none` is a missing client; `some responses` supplies
the generator's per-attempt outcomes.  `grng` is the process-default random
source used by the local path's adjective injection. -/
def generate_prompts_with_llm (adapter : PreferenceAdapter) (num_prompts : Nat)
    (renderer : String) (designers : List Designer) (colors : List Color)
    (tops others : List Garment) (prompt_structures : List PromptStructure)
    (llm_client : Option (List (Option (List PromptItem)))) (r grng : Rng) :
    GenOutcome :=
  let filtered_structures := prompt_structures.filter (fun s => s.renderer == renderer)
  if filtered_structures.isEmpty then
    { result := .error ("No prompt structures found for renderer " ++ renderer)
      adapter := adapter, rng := r, trace := [], explore_mode := false }
  else if designers.isEmpty || colors.isEmpty then
    { result := .error "Designers and colors are required"
      adapter := adapter, rng := r, trace := [], explore_mode := false }
  else
    let decision := batchDecision adapter r
    let explore_mode := decision.1
    let adapter1 := decision.2.1
    let r1 := decision.2.2
    let built := build_contexts adapter1 designers colors tops others
      filtered_structures explore_mode num_prompts r1
    match built.1 with
    | .error e =>
      { result := .error e, adapter := adapter1, rng := built.2.1
        trace := built.2.2, explore_mode := explore_mode }
    | .ok prompt_contexts =>
      match llm_client with
      | none =>
        { result := .ok (generate_locally adapter1 renderer explore_mode
            prompt_contexts grng).1
          adapter := adapter1, rng := built.2.1, trace := built.2.2
          explore_mode := explore_mode }
      | some responses =>
        let looped := llmLoop adapter1 num_prompts renderer designers
          colors tops others filtered_structures explore_mode 2 responses
          prompt_contexts [] built.2.1
        { result := looped.1, adapter := adapter1, rng := looped.2.1
          trace := built.2.2 ++ looped.2.2, explore_mode := explore_mode }

/-! ## Mutating operations of the preference store

`StoreOp` enumerates the four mutating entry points of the adapter; every
reachable store state is a fold of such operations from the constructed
state. -/

/-- One mutating call on the preference store. -/
inductive StoreOp : Type
  | updateOp (prefs : List (String × ℚ)) (rate? : Option ℚ)
      (scores? : Option (List (String × ℚ)))
      (insights? : Option (List (String × StructureInsight))) (now : ℚ)
  | clearOp (now : ℚ)
  | exploreOp (r : Rng)
  | resetStatsOp

/-- Apply one mutating call to the store. -/
def stepOp (s : PreferenceAdapter) : StoreOp → PreferenceAdapter
  | .updateOp prefs rate? scores? insights? now =>
      s.update prefs rate? scores? insights? now
  | .clearOp now => s.clear now
  | .exploreOp r => (s.should_explore r).2.1
  | .resetStatsOp => s.reset_exploration_stats

/-- The store state after a sequence of mutating calls on a fresh store. -/
def runStore (ops : List StoreOp) : PreferenceAdapter :=
  ops.foldl stepOp PreferenceAdapter.init

/-- Every mutating call keeps the exploration rate inside `[0,1]`. -/
theorem stepOp_rate_mem (s : PreferenceAdapter)
    (h0 : 0 ≤ s.exploration_rate) (h1 : s.exploration_rate ≤ 1) (op : StoreOp) :
    0 ≤ (stepOp s op).exploration_rate ∧ (stepOp s op).exploration_rate ≤ 1 := by
  cases op with
  | updateOp prefs rate? scores? insights? now =>
    cases rate? with
    | none => exact ⟨h0, h1⟩
    | some rate =>
      constructor
      · exact le_max_left 0 _
      · simp only [stepOp, PreferenceAdapter.update]
        exact max_le (by norm_num) (min_le_left 1 rate)
  | clearOp now =>
    simp only [stepOp, PreferenceAdapter.clear]
    norm_num
  | exploreOp r =>
    simp only [stepOp, PreferenceAdapter.should_explore]
    split <;> exact ⟨h0, h1⟩
  | resetStatsOp => exact ⟨h0, h1⟩

/-- Folding mutating calls from a state with in-range rate keeps it in range. -/
theorem foldl_rate_mem (ops : List StoreOp) :
    ∀ s : PreferenceAdapter, 0 ≤ s.exploration_rate → s.exploration_rate ≤ 1 →
      0 ≤ (ops.foldl stepOp s).exploration_rate ∧
        (ops.foldl stepOp s).exploration_rate ≤ 1 := by
  induction ops with
  | nil => exact fun s h0 h1 => ⟨h0, h1⟩
  | cons op rest ih =>
    intro s h0 h1
    have h := stepOp_rate_mem s h0 h1 op
    exact ih (stepOp s op) h.1 h.2

/-- C9: In every reachable state of the preference store the exploration rate
lies in `[0,1]`: it starts at the default `0.2`, `update` clamps a supplied
rate into `[0,1]` and keeps the current rate when none is supplied, and
`clear` restores `0.2`; consequently any sequence of mutating calls leaves the
rate inside `[0,1]`. -/
theorem exploration_rate_always_in_unit_interval :
    PreferenceAdapter.init.exploration_rate = 1/5
    ∧ (∀ (s : PreferenceAdapter) prefs scores? insights? now,
        (s.update prefs none scores? insights? now).exploration_rate
          = s.exploration_rate)
    ∧ (∀ (s : PreferenceAdapter) prefs rate scores? insights? now,
        0 ≤ (s.update prefs (some rate) scores? insights? now).exploration_rate
        ∧ (s.update prefs (some rate) scores? insights? now).exploration_rate ≤ 1)
    ∧ (∀ (s : PreferenceAdapter) now, (s.clear now).exploration_rate = 1/5)
    ∧ (∀ ops : List StoreOp,
        0 ≤ (runStore ops).exploration_rate ∧ (runStore ops).exploration_rate ≤ 1) := by
  refine ⟨rfl, fun s prefs scores? insights? now => rfl, ?_, fun s now => rfl, ?_⟩
  · intro s prefs rate scores? insights? now
    constructor
    · exact le_max_left 0 _
    · exact max_le (by norm_num) (min_le_left 1 rate)
  · intro ops
    exact foldl_rate_mem ops PreferenceAdapter.init
      (by norm_num [PreferenceAdapter.init]) (by norm_num [PreferenceAdapter.init])

/-- C8: `should_explore` consumes exactly one uniform value, returns true iff
that value is strictly below the exploration rate, increments exactly the
matching counter, and at the boundary rates 0 and 1 is deterministic for any
value in `[0,1)`. -/
theorem should_explore_spec (s : PreferenceAdapter) (u : ℚ) (fs : List ℚ)
    (cs : List Nat) :
    ((s.should_explore ⟨u :: fs, cs⟩).1 = decide (u < s.exploration_rate))
    ∧ ((s.should_explore ⟨u :: fs, cs⟩).2.2 = ⟨fs, cs⟩)
    ∧ ((s.should_explore ⟨u :: fs, cs⟩).1 = true →
        (s.should_explore ⟨u :: fs, cs⟩).2.1.exploration_count
            = s.exploration_count + 1
        ∧ (s.should_explore ⟨u :: fs, cs⟩).2.1.exploitation_count
            = s.exploitation_count)
    ∧ ((s.should_explore ⟨u :: fs, cs⟩).1 = false →
        (s.should_explore ⟨u :: fs, cs⟩).2.1.exploitation_count
            = s.exploitation_count + 1
        ∧ (s.should_explore ⟨u :: fs, cs⟩).2.1.exploration_count
            = s.exploration_count)
    ∧ (s.exploration_rate = 0 → 0 ≤ u → (s.should_explore ⟨u :: fs, cs⟩).1 = false)
    ∧ (s.exploration_rate = 1 → u < 1 → (s.should_explore ⟨u :: fs, cs⟩).1 = true) := by
  simp only [PreferenceAdapter.should_explore, Rng.randomDraw]
  by_cases h : u < s.exploration_rate
  · refine ⟨by simp [h], by simp [h], by simp [h], by simp [h], ?_, by simp [h]⟩
    intro h0 hu
    rw [h0] at h
    exact absurd h (not_lt.mpr hu)
  · refine ⟨by simp [h], by simp [h], by simp [h], by simp [h], by simp [h], ?_⟩
    intro h1 hu
    rw [h1] at h
    exact absurd hu h

/-- C8 witness: at rate `1/5` with draw `1/10` the adapter explores, consumes
the draw, and bumps only the exploration counter. -/
theorem should_explore_spec_witness :
    (({ PreferenceAdapter.init with exploration_rate := 1/5
        }.should_explore ⟨[1/10], [7]⟩).1 = decide ((1/10 : ℚ) < 1/5))
    ∧ (({ PreferenceAdapter.init with exploration_rate := 1/5
        }.should_explore ⟨[1/10], [7]⟩).2.2 = ⟨[], [7]⟩)
    ∧ (({ PreferenceAdapter.init with exploration_rate := 1/5
        }.should_explore ⟨[1/10], [7]⟩).2.1.exploration_count = 0 + 1
      ∧ ({ PreferenceAdapter.init with exploration_rate := 1/5
        }.should_explore ⟨[1/10], [7]⟩).2.1.exploitation_count = 0) := by
  have h := should_explore_spec
    { PreferenceAdapter.init with exploration_rate := 1/5 } (1/10) [] [7]
  exact ⟨h.1, h.2.1, h.2.2.1 (by decide)⟩

/-- C10: `get_exploration_stats` is total: with no recorded decisions the
realised exploration rate is reported as `0` rather than failing on a division
by zero, and with at least one decision it is the exploration count over the
total, rounded to four decimal places. -/
theorem get_exploration_stats_total (s : PreferenceAdapter) :
    (s.get_exploration_stats.total_decisions
        = s.exploration_count + s.exploitation_count)
    ∧ (s.exploration_count + s.exploitation_count = 0 →
        s.get_exploration_stats.actual_exploration_rate = 0)
    ∧ (0 < s.exploration_count + s.exploitation_count →
        s.get_exploration_stats.actual_exploration_rate
          = roundTo4 ((s.exploration_count : ℚ)
              / ((s.exploration_count + s.exploitation_count : Nat) : ℚ))) := by
  refine ⟨rfl, ?_, ?_⟩
  · intro h
    simp [PreferenceAdapter.get_exploration_stats, h]
  · intro h
    simp [PreferenceAdapter.get_exploration_stats, h]

/-- A store that has recorded two exploration and one exploitation decision. -/
def statsStore : PreferenceAdapter :=
  ⟨[], 1/5, [], [], none, 2, 1⟩

/-- C10 witness: a store that explored twice and exploited once reports
`2/3` rounded to four places; a fresh store reports `0`. -/
theorem get_exploration_stats_total_witness :
    statsStore.get_exploration_stats.actual_exploration_rate
        = roundTo4 ((2 : ℚ) / ((3 : Nat) : ℚ))
    ∧ PreferenceAdapter.init.get_exploration_stats.actual_exploration_rate = 0 := by
  constructor
  · exact (get_exploration_stats_total statsStore).2.2 (by decide)
  · exact (get_exploration_stats_total PreferenceAdapter.init).2.1 (by decide)

/-- C4 counterexample: `clear` does not reset every field to its
construction-time default — `last_updated` is `none` at construction but is
stamped with the clear time by `clear`, so after clearing a fresh store at
time 1 the field differs from its construction-time value. -/
theorem clear_not_full_reset :
    (PreferenceAdapter.init.clear 1).last_updated = some 1
    ∧ PreferenceAdapter.init.last_updated = none
    ∧ (PreferenceAdapter.init.clear 1).last_updated
        ≠ PreferenceAdapter.init.last_updated := by
  refine ⟨rfl, rfl, by decide⟩

/-- C4 (amended): `clear` resets the attribute-preference, structure-score and
structure-insight mappings to empty, the exploration rate to its default
`0.2`, and both counters to `0`, after which `has_preferences` is false; the
`last_updated` field, however, is stamped with the time of the clear call
rather than reset to its construction-time default (`None`). -/
theorem clear_resets_to_defaults (s : PreferenceAdapter) (now : ℚ) :
    (s.clear now).preferences = []
    ∧ (s.clear now).structure_scores = []
    ∧ (s.clear now).structure_prompt_insights = []
    ∧ (s.clear now).exploration_rate = 1/5
    ∧ (s.clear now).exploration_count = 0
    ∧ (s.clear now).exploitation_count = 0
    ∧ (s.clear now).has_preferences = false
    ∧ (s.clear now).last_updated = some now :=
  ⟨rfl, rfl, rfl, rfl, rfl, rfl, rfl, rfl⟩

/-- The minimum of a score list bounds every member from below. -/
theorem listMin_le_mem (l : List ℚ) (x : ℚ) (hx : x ∈ l) : listMin l ≤ x := by
  match l with
  | y :: ys =>
    have aux : ∀ (zs : List ℚ) (a : ℚ), zs.foldl min a ≤ a
        ∧ ∀ z ∈ zs, zs.foldl min a ≤ z := by
      intro zs
      induction zs with
      | nil => exact fun a => ⟨le_refl a, by simp⟩
      | cons z zs ih =>
        intro a
        refine ⟨?_, ?_⟩
        · exact le_trans (ih (min a z)).1 (min_le_left a z)
        · intro w hw
          rcases List.mem_cons.mp hw with h | h
          · subst h
            exact le_trans (ih (min a w)).1 (min_le_right a w)
          · exact (ih (min a z)).2 w h
    rcases List.mem_cons.mp hx with h | h
    · subst h
      exact (aux ys x).1
    · exact (aux ys y).2 x h

/-- C7: structure-selection sampling weights are strictly positive in both
exploit branches: with optimizer scores every weight is `max(score, 0.1)` and
hence at least `0.1`; in the fallback-heuristic branch the shift by
`|min| + 0.1` (or flat `0.1`) makes every weight — including the weight of the
candidate with the globally minimal raw score — strictly positive. -/
theorem exploit_weights_positive (ranked : List (String × ℚ))
    (structures : List PromptStructure) :
    (∀ w ∈ scoreWeights ranked, (1 : ℚ)/10 ≤ w)
    ∧ (∀ w ∈ fallbackWeights structures, 0 < w) := by
  constructor
  · intro w hw
    rcases List.mem_map.mp hw with ⟨p, _, hp⟩
    rw [← hp]
    exact le_max_right p.2 (1/10)
  · intro w hw
    simp only [fallbackWeights] at hw
    rcases List.mem_map.mp hw with ⟨sc, hsc, hw'⟩
    have hmin : listMin (structures.map fallback_structure_score) ≤ sc :=
      listMin_le_mem _ sc hsc
    rw [← hw']
    set m := listMin (structures.map fallback_structure_score) with hm
    by_cases hneg : m < 0
    · simp only [if_pos hneg, abs_of_neg hneg]
      have : (0 : ℚ) < sc + -m + 1/10 := by linarith
      linarith [this]
    · simp only [if_neg hneg]
      push_neg at hneg
      linarith

/-- A structure fixture whose raw heuristic score is negative (`-3/5`, from a
z-score of `-1/5`). -/
def negativeScoreStructure : PromptStructure :=
  ⟨"s1", "sk", 0, 0, 0, -1/5, 0, "", "Recraft"⟩

/-- C7 witness: for a ranked score of `-2` the floored weight is at least
`0.1`, and for the negative-score fixture the single shifted fallback weight
is strictly positive. -/
theorem exploit_weights_positive_witness :
    ((1 : ℚ)/10 ≤ max (-2 : ℚ) (1/10))
    ∧ (0 < fallback_structure_score negativeScoreStructure
        + (|fallback_structure_score negativeScoreStructure| + 1/10)) :=
  ⟨(exploit_weights_positive [("s1", (-2 : ℚ))] [negativeScoreStructure]).1
      (max (-2 : ℚ) (1/10)) (by decide),
   (exploit_weights_positive [("s1", (-2 : ℚ))] [negativeScoreStructure]).2
      (fallback_structure_score negativeScoreStructure
        + (|fallback_structure_score negativeScoreStructure| + 1/10))
      (by decide)⟩

/-- A choice from a non-empty pool always succeeds. -/
theorem rngChoice_ok {α : Type} (l : List α) (r : Rng) (h : l ≠ []) :
    ∃ x r1, rngChoice l r = .ok (x, r1) := by
  match l with
  | [] => exact absurd rfl h
  | x :: xs => exact ⟨_, _, rfl⟩

/-- A top-pool garment fixture with no attribute lists. -/
def topFixture : Garment := ⟨"g1", "Top", [], [], []⟩

/-- C6 counterexample: the claim says garment selection draws one uniform
value on every call, but with a non-empty tops pool and an empty others pool
the short-circuit `tops and (not others or rng.random() < 0.75)` never reaches
`rng.random()`: the call returns a tops garment with the uniform stream
returned intact (`[1/2]`, not its tail `[]`), so no uniform value was
drawn. -/
theorem select_garment_skips_draw_when_others_empty :
    select_garment [topFixture] [] ⟨[1/2], [0]⟩
        = .ok (topFixture, ⟨[1/2], []⟩)
    ∧ ([(1 : ℚ)/2] : List ℚ) ≠ List.tail [(1 : ℚ)/2] :=
  ⟨rfl, by decide⟩

/-- C6 (amended): garment selection follows the 75%/25% tops/others split but
draws its uniform value only when both pools are non-empty: with both pools
non-empty one uniform value is drawn and the tops pool is sampled iff the
value is `< 0.75`, otherwise the others pool; when exactly one pool is
non-empty that pool is sampled directly with no uniform draw; and the call
fails with an input error if and only if both pools are empty. -/
theorem select_garment_spec (tops others : List Garment) (r : Rng) :
    (tops ≠ [] → others = [] → select_garment tops others r = rngChoice tops r)
    ∧ (tops = [] → others ≠ [] → select_garment tops others r = rngChoice others r)
    ∧ (tops ≠ [] → others ≠ [] →
        select_garment tops others r =
          if r.randomDraw.1 < 3/4 then rngChoice tops r.randomDraw.2
          else rngChoice others r.randomDraw.2)
    ∧ ((∃ e, select_garment tops others r = .error e) ↔ tops = [] ∧ others = []) := by
  refine ⟨?_, ?_, ?_, ?_⟩
  · intro ht ho
    subst ho
    simp [select_garment, ht, List.isEmpty_iff, List.isEmpty_nil]
  · intro ht ho
    subst ht
    simp [select_garment, List.isEmpty_iff, ho, List.isEmpty_nil]
  · intro ht ho
    by_cases h : r.randomDraw.1 < 3/4 <;>
      simp [select_garment, List.isEmpty_iff, ht, ho, h]
  · constructor
    · rintro ⟨e, he⟩
      by_contra hne
      have hcases : ¬(tops.isEmpty && others.isEmpty) = true := by
        intro hb
        rcases Bool.and_eq_true_iff.mp hb with ⟨h1, h2⟩
        exact hne ⟨List.isEmpty_iff.mp h1, List.isEmpty_iff.mp h2⟩
      simp only [select_garment, if_neg hcases] at he
      rcases hx : (if tops.isEmpty then (false, r)
          else if others.isEmpty then (true, r)
          else ((decide (r.randomDraw.1 < 3/4) : Bool), r.randomDraw.2)) with ⟨c, r1⟩
      rw [hx] at he
      by_cases hc : c = true
      · subst hc
        simp only [if_pos rfl] at he
        have htne : tops ≠ [] := by
          intro hte
          subst hte
          simp at hx
        rcases rngChoice_ok tops r1 htne with ⟨x, r2, hok⟩
        rw [hok] at he
        exact Except.noConfusion he
      · have hc' : c = false := by
          cases c
          · rfl
          · exact absurd rfl hc
        subst hc'
        simp only [Bool.false_eq_true, if_neg (by simp : ¬False)] at he
        by_cases hoe : others.isEmpty
        · have hone : others = [] := List.isEmpty_iff.mp hoe
          have htne : tops ≠ [] := fun hte => hne ⟨hte, hone⟩
          rw [if_pos hoe] at he
          rcases rngChoice_ok tops r1 htne with ⟨x, r2, hok⟩
          rw [hok] at he
          exact Except.noConfusion he
        · have hone : others ≠ [] := fun hoeq => hoe (by simp [hoeq])
          rw [if_neg hoe] at he
          rcases rngChoice_ok others r1 hone with ⟨x, r2, hok⟩
          rw [hok] at he
          exact Except.noConfusion he
    · rintro ⟨ht, ho⟩
      subst ht
      subst ho
      exact ⟨"No garments available", rfl⟩

/-- C6 amended-claim witness: with both pools non-empty and a drawn value
`9/10 ≥ 3/4`, selection samples the others pool after consuming the value. -/
theorem select_garment_spec_witness :
    select_garment [topFixture] [⟨"g2", "Pant", [], [], []⟩] ⟨[9/10], [0]⟩
      = rngChoice [⟨"g2", "Pant", [], [], []⟩] ⟨[], [0]⟩ := by
  have h := (select_garment_spec [topFixture] [⟨"g2", "Pant", [], [], []⟩]
    ⟨[9/10], [0]⟩).2.2.1 (by decide) (by decide)
  rw [h]
  norm_num [Rng.randomDraw]

/-- The acceptance loop appends exactly the field-complete, renderer-matching
items of the response, in order, truncated to the remaining shortfall. -/
theorem acceptItems_filter_take (target : Nat) (rdr : String)
    (items : List PromptItem) : ∀ accum : List PromptItem,
    acceptItems target rdr accum items
      = accum ++ (items.filter
          (fun p => hasRequiredKeys p && p.renderer == some rdr)).take
            (target - accum.length) := by
  induction items with
  | nil => intro accum; simp [acceptItems]
  | cons p ps ih =>
    intro accum
    simp only [acceptItems]
    split_ifs with hge h1 h2
    · rw [Nat.sub_eq_zero_of_le hge]
      simp
    · have hk : hasRequiredKeys p = false := by
        cases hhk : hasRequiredKeys p
        · rfl
        · rw [hhk] at h1
          simp at h1
      rw [ih accum, List.filter_cons_of_neg (by simp [hk])]
    · have hr : (p.renderer == some rdr) = false := by
        cases hpr : p.renderer == some rdr
        · rfl
        · have hb : (p.renderer != some rdr) = !(p.renderer == some rdr) := rfl
          rw [hb, hpr] at h2
          simp at h2
      rw [ih accum, List.filter_cons_of_neg (by simp [hr])]
    · have hk : hasRequiredKeys p = true := by
        cases hhk : hasRequiredKeys p
        · exfalso
          apply h1
          rw [hhk]
          decide
        · rfl
      have hr : (p.renderer == some rdr) = true := by
        cases hpr : p.renderer == some rdr
        · exfalso
          apply h2
          have hb : (p.renderer != some rdr) = !(p.renderer == some rdr) := rfl
          rw [hb, hpr]
          decide
        · rfl
      rw [ih (accum ++ [p]), List.filter_cons_of_pos (by simp [hk, hr])]
      have hlt : accum.length < target := Nat.lt_of_not_le hge
      have hn : target - accum.length = (target - (accum ++ [p]).length) + 1 := by
        simp only [List.length_append, List.length_cons, List.length_nil]
        omega
      rw [hn, List.take_succ_cons]
      simp

/-- C2 (amended): in the LLM-dispatch path a generator-returned item is
accepted if and only if it carries all five required fields and its renderer
equals the request's renderer, with acceptance stopping once the running
total reaches the target; membership of `promptStructureId`, `designerId` and
`garmentId` in the request-time candidate pools is NOT checked — the accepted
items are exactly the field-complete, renderer-matching response items in
order, truncated to the remaining shortfall. -/
theorem accepted_iff_fields_and_renderer (target : Nat) (rdr : String)
    (accum items : List PromptItem) :
    acceptItems target rdr accum items
      = accum ++ (items.filter
          (fun p => hasRequiredKeys p && p.renderer == some rdr)).take
            (target - accum.length) :=
  acceptItems_filter_take target rdr items accum

/-- A designer fixture. -/
def designerFixture : Designer := ⟨"d1", "Prada", ["Minimalist"]⟩

/-- A color fixture. -/
def colorFixture : Color := ⟨"c1", "Cream"⟩

/-- A prompt-structure fixture for renderer `Recraft`. -/
def structureFixture : PromptStructure :=
  ⟨"s1", "${designer} wears ${color} ---", 0, 0, 0, 0, 0, "", "Recraft"⟩

/-- A generator item carrying all five fields and the right renderer but ids
that occur in none of the candidate pools. -/
def foreignIdItem : PromptItem :=
  ⟨some "no marker", some "zz", some "zz", some "zz", some "Recraft"⟩

/-- C2 counterexample: a generator item whose `designerId`, `garmentId` and
`promptStructureId` occur in none of the request-time pools (`zz` against
pools `d1`/`g1`/`s1`) is accepted and returned, so acceptance does not
require the ids to reference the candidate pools. -/
theorem llm_accepts_foreign_ids :
    (generate_prompts_with_llm PreferenceAdapter.init 1 "Recraft"
        [designerFixture] [colorFixture] [topFixture] [] [structureFixture]
        (some [some [foreignIdItem]]) ⟨[0], [0, 0, 0]⟩ ⟨[], []⟩).result
      = .ok [foreignIdItem]
    ∧ foreignIdItem.designerId = some "zz"
    ∧ foreignIdItem.garmentId = some "zz"
    ∧ foreignIdItem.promptStructureId = some "zz"
    ∧ [designerFixture].map Designer.id = ["d1"]
    ∧ [topFixture].map Garment.id = ["g1"]
    ∧ [structureFixture].map PromptStructure.id = ["s1"] :=
  ⟨rfl, rfl, rfl, rfl, rfl, rfl, rfl⟩

/-- The local path produces exactly one prompt item per sampling context. -/
theorem generate_locally_length (adapter : PreferenceAdapter) (rdr : String)
    (em : Bool) : ∀ (ctxs : List SamplingContext) (grng : Rng),
    ((generate_locally adapter rdr em ctxs grng).1).length = ctxs.length := by
  intro ctxs
  induction ctxs with
  | nil => intro grng; rfl
  | cons ctx rest ih =>
    intro grng
    simp only [generate_locally, List.length_cons]
    rw [ih]

/-- A successful context build returns exactly the requested number of
sampling contexts. -/
theorem build_contexts_ok_length (adapter : PreferenceAdapter)
    (designers : List Designer) (colors : List Color) (tops others : List Garment)
    (filtered : List PromptStructure) (explore : Bool) :
    ∀ (n : Nat) (r : Rng) (l : List SamplingContext),
    (build_contexts adapter designers colors tops others filtered explore n r).1
      = .ok l → l.length = n := by
  intro n
  induction n with
  | zero =>
    intro r l h
    simp only [build_contexts] at h
    cases h
    rfl
  | succ n ih =>
    intro r l h
    simp only [build_contexts] at h
    rcases hd : rngChoice designers r with e | dp
    · simp only [hd] at h
      cases h
    · simp only [hd] at h
      rcases hc : rngChoice colors dp.2 with e | cp
      · simp only [hc] at h
        cases h
      · simp only [hc] at h
        rcases hg : select_garment tops others cp.2 with e | gp
        · simp only [hg] at h
          cases h
        · simp only [hg] at h
          rcases hs : select_structure adapter filtered gp.2 explore with e | sp
          · simp only [hs] at h
            cases h
          · simp only [hs] at h
            rcases hrest : (build_contexts adapter designers colors tops others
                filtered explore n sp.2).1 with e | ctxs
            · simp only [hrest] at h
              cases h
            · simp only [hrest] at h
              cases h
              simp [ih sp.2 ctxs hrest]

/-- A successful retry loop returns exactly the first `target` accepted
items. -/
theorem llmLoop_ok_length (adapter : PreferenceAdapter) (target : Nat)
    (rdr : String) (designers : List Designer) (colors : List Color)
    (tops others : List Garment) (filtered : List PromptStructure) (em : Bool) :
    ∀ (fuel : Nat) (responses : List (Option (List PromptItem)))
      (ctxs : List SamplingContext) (accum : List PromptItem) (r : Rng)
      (l : List PromptItem),
    (llmLoop adapter target rdr designers colors tops others filtered em
        fuel responses ctxs accum r).1 = .ok l → l.length = target := by
  intro fuel
  induction fuel with
  | zero =>
    intro responses ctxs accum r l h
    exact absurd h (by simp [llmLoop])
  | succ n ih =>
    intro responses ctxs accum r l h
    simp only [llmLoop] at h
    rcases hh : responses.headD none with _ | items <;> simp only [hh] at h
    · exact ih responses.tail ctxs accum r l h
    · by_cases hge : (acceptItems target rdr accum items).length ≥ target
      · rw [if_pos hge] at h
        cases h
        simp [List.length_take]
        omega
      · rw [if_neg hge] at h
        rcases hrb : (build_contexts adapter designers colors tops others
            filtered em (target - (acceptItems target rdr accum items).length)
            r).1 with e | newCtxs <;> simp only [hrb] at h
        · exact ih responses.tail ctxs (acceptItems target rdr accum items) _ l h
        · exact ih responses.tail newCtxs (acceptItems target rdr accum items) _ l h

/-- C1: for a request with positive count and non-empty designer, color,
garment and renderer-filtered structure pools, `generate_prompts_with_llm`
either fails or returns exactly the requested number of prompt items — never
more and never fewer — on both the local fallback path and the LLM retry
path. -/
theorem generate_exact_prompt_count
    (adapter : PreferenceAdapter) (num_prompts : Nat) (renderer : String)
    (designers : List Designer) (colors : List Color) (tops others : List Garment)
    (prompt_structures : List PromptStructure)
    (llm_client : Option (List (Option (List PromptItem)))) (r grng : Rng)
    (_hn : 0 < num_prompts) (hd : designers ≠ []) (hc : colors ≠ [])
    (_hg : ¬(tops = [] ∧ others = []))
    (hf : prompt_structures.filter (fun s => s.renderer == renderer) ≠ []) :
    ∀ l, (generate_prompts_with_llm adapter num_prompts renderer designers colors
        tops others prompt_structures llm_client r grng).result = .ok l →
      l.length = num_prompts := by
  intro l h
  simp only [generate_prompts_with_llm] at h
  have hfe : (prompt_structures.filter (fun s => s.renderer == renderer)).isEmpty
      = false := by
    rcases hl : prompt_structures.filter (fun s => s.renderer == renderer) with
      _ | ⟨a, as⟩
    · exact absurd hl hf
    · rw [hl]
      rfl
  have hde : designers.isEmpty = false := by
    rcases hl : designers with _ | ⟨a, as⟩
    · exact absurd hl hd
    · rfl
  have hce : colors.isEmpty = false := by
    rcases hl : colors with _ | ⟨a, as⟩
    · exact absurd hl hc
    · rfl
  rw [if_neg (by simp [hfe]), if_neg (by simp [hde, hce])] at h
  rcases hb : (build_contexts (batchDecision adapter r).2.1 designers colors tops
      others (prompt_structures.filter (fun s => s.renderer == renderer))
      (batchDecision adapter r).1 num_prompts (batchDecision adapter r).2.2).1 with
    e | ctxs
  · simp only [hb] at h
    cases h
  · simp only [hb] at h
    cases llm_client with
    | none =>
      simp only [] at h
      cases h
      rw [generate_locally_length]
      exact build_contexts_ok_length _ designers colors tops others _ _
        num_prompts _ ctxs hb
    | some responses =>
      simp only [] at h
      exact llmLoop_ok_length _ num_prompts renderer designers colors tops others
        _ _ 2 responses ctxs [] _ l h

/-- C1 witness: a concrete local-path call with one designer, color, garment
and structure returns exactly one item. -/
theorem generate_exact_prompt_count_witness :
    ([(⟨some "Prada wears Cream ---", some "d1", some "g1", some "s1",
        some "Recraft"⟩ : PromptItem)] : List PromptItem).length = 1 :=
  generate_exact_prompt_count PreferenceAdapter.init 1 "Recraft"
    [designerFixture] [colorFixture] [topFixture] [] [structureFixture]
    none ⟨[0], [0, 0, 0]⟩ ⟨[], []⟩ (by decide) (by decide) (by decide)
    (by simp) (by decide)
    [⟨some "Prada wears Cream ---", some "d1", some "g1", some "s1",
      some "Recraft"⟩] rfl

/-- The local-path text postcondition: the finalised text always ends in
`"---"` (though not necessarily in `" ---"`). -/
theorem finalize_endsWith_dashes (raw : String) :
    pyEndsWith (finalize_prompt_text raw) "---" = true := by
  unfold finalize_prompt_text
  by_cases h : pyEndsWith (pyStrip raw) "---"
  · rw [if_pos h]
    exact h
  · rw [if_neg h]
    unfold pyEndsWith
    have hdata : (pyStrip raw ++ " ---").data
        = (pyStrip raw).data ++ [' ', '-', '-', '-'] := rfl
    rw [hdata]
    simp only [List.isSuffixOf_iff_suffix]
    exact ⟨(pyStrip raw).data ++ [' '], by simp⟩

/-- Every item built by the local path carries a `finalize_prompt_text`
image as its prompt text. -/
theorem generate_locally_text_shape (adapter : PreferenceAdapter) (rdr : String)
    (em : Bool) : ∀ (ctxs : List SamplingContext) (grng : Rng) (p : PromptItem),
    p ∈ (generate_locally adapter rdr em ctxs grng).1 →
    ∃ raw, p.promptText = some (finalize_prompt_text raw) := by
  intro ctxs
  induction ctxs with
  | nil =>
    intro grng p hp
    simp [generate_locally] at hp
  | cons ctx rest ih =>
    intro grng p hp
    simp only [generate_locally, List.mem_cons] at hp
    rcases hp with hp | hp
    · exact ⟨fill_skeleton ctx.prompt_structure.skeleton
        (injectAdjective adapter em
          (build_variable_map ctx.designer ctx.color ctx.garment) grng).1,
        by rw [hp]⟩
    · exact ih _ p hp

/-- Accepted items come from the prior accumulator or the response itself. -/
theorem acceptItems_mem (target : Nat) (rdr : String)
    (accum items : List PromptItem) (p : PromptItem)
    (hp : p ∈ acceptItems target rdr accum items) : p ∈ accum ∨ p ∈ items := by
  rw [acceptItems_filter_take] at hp
  rcases List.mem_append.mp hp with h | h
  · exact Or.inl h
  · exact Or.inr (List.mem_of_mem_filter (List.take_subset _ _ h))

/-- A non-default head of an option list is one of its members. -/
theorem headD_none_some_mem {α : Type} (l : List (Option α)) (x : α)
    (h : l.headD none = some x) : some x ∈ l := by
  cases l with
  | nil => cases h
  | cons y ys =>
    rw [List.headD_cons] at h
    rw [h] at *
    exact List.mem_cons_self _ _

/-- Tail membership lifts to the whole list. -/
theorem mem_of_tail {α : Type} (l : List α) (x : α) (h : x ∈ l.tail) : x ∈ l := by
  cases l with
  | nil => cases h
  | cons y ys => exact List.mem_cons_of_mem y h

/-- Every item of a successful retry-loop result is either carried over from
the accumulator or appears verbatim in one of the generator's responses. -/
theorem llmLoop_ok_from_responses (adapter : PreferenceAdapter) (target : Nat)
    (rdr : String) (designers : List Designer) (colors : List Color)
    (tops others : List Garment) (filtered : List PromptStructure) (em : Bool) :
    ∀ (fuel : Nat) (responses : List (Option (List PromptItem)))
      (ctxs : List SamplingContext) (accum : List PromptItem) (r : Rng)
      (l : List PromptItem),
    (llmLoop adapter target rdr designers colors tops others filtered em
        fuel responses ctxs accum r).1 = .ok l →
    ∀ p ∈ l, p ∈ accum ∨ ∃ items, some items ∈ responses ∧ p ∈ items := by
  intro fuel
  induction fuel with
  | zero =>
    intro responses ctxs accum r l h
    exact absurd h (by simp [llmLoop])
  | succ n ih =>
    intro responses ctxs accum r l h p hp
    simp only [llmLoop] at h
    rcases hh : responses.headD none with _ | items
    · simp only [hh] at h
      rcases ih responses.tail ctxs accum r l h p hp with hA | ⟨its, hm, hi⟩
      · exact Or.inl hA
      · exact Or.inr ⟨its, mem_of_tail _ _ hm, hi⟩
    · simp only [hh] at h
      by_cases hge : (acceptItems target rdr accum items).length ≥ target
      · rw [if_pos hge] at h
        cases h
        have hp1 : p ∈ acceptItems target rdr accum items :=
          List.take_subset _ _ hp
        rcases acceptItems_mem target rdr accum items p hp1 with hA | hI
        · exact Or.inl hA
        · exact Or.inr ⟨items, headD_none_some_mem _ _ hh, hI⟩
      · rw [if_neg hge] at h
        rcases hrb : (build_contexts adapter designers colors tops others
            filtered em (target - (acceptItems target rdr accum items).length)
            r).1 with e | newCtxs <;> simp only [hrb] at h
        · rcases ih responses.tail ctxs (acceptItems target rdr accum items) _
              l h p hp with hA | ⟨its, hm, hi⟩
          · rcases acceptItems_mem target rdr accum items p hA with hA' | hI
            · exact Or.inl hA'
            · exact Or.inr ⟨items, headD_none_some_mem _ _ hh, hI⟩
          · exact Or.inr ⟨its, mem_of_tail _ _ hm, hi⟩
        · rcases ih responses.tail newCtxs (acceptItems target rdr accum items) _
              l h p hp with hA | ⟨its, hm, hi⟩
          · rcases acceptItems_mem target rdr accum items p hA with hA' | hI
            · exact Or.inl hA'
            · exact Or.inr ⟨items, headD_none_some_mem _ _ hh, hI⟩
          · exact Or.inr ⟨its, mem_of_tail _ _ hm, hi⟩

/-- A structure fixture whose skeleton already ends in `---` without the
leading space. -/
def markerStructure : PromptStructure :=
  ⟨"s2", "X---", 0, 0, 0, 0, 0, "", "Recraft"⟩

/-- A generator item whose text carries no suffix marker at all. -/
def noMarkerItem : PromptItem :=
  ⟨some "no marker", some "d1", some "g1", some "s1", some "Recraft"⟩

/-- C3 counterexample: returned prompt texts need not end in `" ---"`.  On the
local path a skeleton that substitutes to `"X---"` already satisfies the
`endswith("---")` check, so no `" ---"` is appended and the returned text does
not end with the four-character marker; on the LLM path an accepted item's
text (`"no marker"`) is returned exactly as the generator supplied it, with no
trimming and no marker enforcement. -/
theorem prompt_text_marker_counterexample :
    (generate_prompts_with_llm PreferenceAdapter.init 1 "Recraft"
        [designerFixture] [colorFixture] [topFixture] [] [markerStructure]
        none ⟨[0], [0, 0, 0]⟩ ⟨[], []⟩).result
      = .ok [⟨some "X---", some "d1", some "g1", some "s2", some "Recraft"⟩]
    ∧ pyEndsWith "X---" " ---" = false
    ∧ (generate_prompts_with_llm PreferenceAdapter.init 1 "Recraft"
        [designerFixture] [colorFixture] [topFixture] [] [structureFixture]
        (some [some [noMarkerItem]]) ⟨[0], [0, 0, 0]⟩ ⟨[], []⟩).result
      = .ok [noMarkerItem]
    ∧ noMarkerItem.promptText = some "no marker"
    ∧ pyEndsWith "no marker" " ---" = false :=
  ⟨rfl, by decide, rfl, rfl, by decide⟩

/-- C3 (amended): on the local fallback path every returned item's prompt text
is the stripped, substituted skeleton finalised by appending `" ---"` exactly
when the stripped text does not already end with `"---"` — so it always ends
with `"---"`, though not necessarily with `" ---"`; on the LLM dispatch path
returned items appear verbatim in one of the generator's responses, their
prompt text unmodified by the orchestrator. -/
theorem prompt_text_by_generation_path :
    (∀ (adapter : PreferenceAdapter) (rdr : String) (em : Bool)
        (ctxs : List SamplingContext) (grng : Rng) (p : PromptItem),
      p ∈ (generate_locally adapter rdr em ctxs grng).1 →
      ∃ raw, p.promptText = some (finalize_prompt_text raw)
        ∧ pyEndsWith (finalize_prompt_text raw) "---" = true)
    ∧ (∀ (adapter : PreferenceAdapter) (num_prompts : Nat) (renderer : String)
         (designers : List Designer) (colors : List Color)
         (tops others : List Garment) (prompt_structures : List PromptStructure)
         (responses : List (Option (List PromptItem))) (r grng : Rng)
         (l : List PromptItem),
      (generate_prompts_with_llm adapter num_prompts renderer designers colors
          tops others prompt_structures (some responses) r grng).result = .ok l →
      ∀ p ∈ l, ∃ items, some items ∈ responses ∧ p ∈ items) := by
  constructor
  · intro adapter rdr em ctxs grng p hp
    rcases generate_locally_text_shape adapter rdr em ctxs grng p hp with ⟨raw, hraw⟩
    exact ⟨raw, hraw, finalize_endsWith_dashes raw⟩
  · intro adapter num_prompts renderer designers colors tops others
      prompt_structures responses r grng l h p hp
    simp only [generate_prompts_with_llm] at h
    by_cases h1 : (prompt_structures.filter (fun s => s.renderer == renderer)).isEmpty
    · rw [if_pos h1] at h
      cases h
    · rw [if_neg h1] at h
      by_cases h2 : (designers.isEmpty || colors.isEmpty) = true
      · rw [if_pos h2] at h
        cases h
      · rw [if_neg h2] at h
        rcases hb : (build_contexts (batchDecision adapter r).2.1 designers colors
            tops others (prompt_structures.filter (fun s => s.renderer == renderer))
            (batchDecision adapter r).1 num_prompts
            (batchDecision adapter r).2.2).1 with e | ctxs
        · simp only [hb] at h
          cases h
        · simp only [hb] at h
          rcases llmLoop_ok_from_responses (batchDecision adapter r).2.1
              num_prompts renderer designers colors tops others
              (prompt_structures.filter (fun s => s.renderer == renderer))
              (batchDecision adapter r).1 2 responses ctxs [] _ l h p hp with
            hA | hR
          · cases hA
          · exact hR

/-- C3 amended-claim witness: the single local-path item built from the sample
context carries a finalised text ending in `"---"`. -/
theorem prompt_text_by_generation_path_witness :
    ∃ raw, (⟨some "Prada wears Cream ---", some "d1", some "g1", some "s1",
        some "Recraft"⟩ : PromptItem).promptText
          = some (finalize_prompt_text raw)
      ∧ pyEndsWith (finalize_prompt_text raw) "---" = true :=
  prompt_text_by_generation_path.1 PreferenceAdapter.init "Recraft" false
    [⟨designerFixture, colorFixture, topFixture, structureFixture⟩] ⟨[], []⟩
    ⟨some "Prada wears Cream ---", some "d1", some "g1", some "s1",
      some "Recraft"⟩ (by decide)

/-- One `should_explore` call adds exactly one to the combined decision
counters. -/
theorem should_explore_counter_sum (s : PreferenceAdapter) (r : Rng) :
    (s.should_explore r).2.1.exploration_count
        + (s.should_explore r).2.1.exploitation_count
      = s.exploration_count + s.exploitation_count + 1 := by
  simp only [PreferenceAdapter.should_explore]
  split
  · simp only []
    omega
  · simp only []
    omega

/-- The batch decision consults `should_explore` exactly once when preferences
are loaded and never otherwise, as witnessed by the combined counters. -/
theorem batchDecision_counter_sum (adapter : PreferenceAdapter) (r : Rng) :
    (batchDecision adapter r).2.1.exploration_count
        + (batchDecision adapter r).2.1.exploitation_count
      = adapter.exploration_count + adapter.exploitation_count
        + (if adapter.has_preferences then 1 else 0) := by
  by_cases h : adapter.has_preferences
  · simp only [batchDecision, if_pos h]
    rw [should_explore_counter_sum]
  · simp only [batchDecision, if_neg h]
    omega

/-- Every flag recorded while building contexts is the explore flag the build
was called with. -/
theorem build_contexts_trace (adapter : PreferenceAdapter)
    (designers : List Designer) (colors : List Color) (tops others : List Garment)
    (filtered : List PromptStructure) (explore : Bool) :
    ∀ (n : Nat) (r : Rng) (b : Bool),
    b ∈ (build_contexts adapter designers colors tops others filtered explore
        n r).2.2 → b = explore := by
  intro n
  induction n with
  | zero =>
    intro r b hb
    simp [build_contexts] at hb
  | succ n ih =>
    intro r b hb
    simp only [build_contexts] at hb
    rcases hd : rngChoice designers r with e | dp <;> simp only [hd] at hb
    · simp at hb
    rcases hc : rngChoice colors dp.2 with e | cp <;> simp only [hc] at hb
    · simp at hb
    rcases hg : select_garment tops others cp.2 with e | gp <;> simp only [hg] at hb
    · simp at hb
    rcases hs : select_structure adapter filtered gp.2 explore with e | sp <;>
      simp only [hs] at hb
    · simp at hb
    rcases hrest : (build_contexts adapter designers colors tops others
        filtered explore n sp.2).1 with e | ctxs <;> simp only [hrest] at hb
    · rcases List.mem_cons.mp hb with hb | hb
      · exact hb
      · exact ih sp.2 b hb
    · rcases List.mem_cons.mp hb with hb | hb
      · exact hb
      · exact ih sp.2 b hb

/-- Every flag recorded while rebuilding shortfall contexts inside the retry
loop is the batch's explore flag. -/
theorem llmLoop_trace (adapter : PreferenceAdapter) (target : Nat)
    (rdr : String) (designers : List Designer) (colors : List Color)
    (tops others : List Garment) (filtered : List PromptStructure) (em : Bool) :
    ∀ (fuel : Nat) (responses : List (Option (List PromptItem)))
      (ctxs : List SamplingContext) (accum : List PromptItem) (r : Rng) (b : Bool),
    b ∈ (llmLoop adapter target rdr designers colors tops others filtered em
        fuel responses ctxs accum r).2.2 → b = em := by
  intro fuel
  induction fuel with
  | zero =>
    intro responses ctxs accum r b hb
    simp [llmLoop] at hb
  | succ n ih =>
    intro responses ctxs accum r b hb
    simp only [llmLoop] at hb
    rcases hh : responses.headD none with _ | items <;> simp only [hh] at hb
    · exact ih responses.tail ctxs accum r b hb
    · by_cases hge : (acceptItems target rdr accum items).length ≥ target
      · rw [if_pos hge] at hb
        simp at hb
      · rw [if_neg hge] at hb
        rcases hrb : (build_contexts adapter designers colors tops others
            filtered em (target - (acceptItems target rdr accum items).length)
            r).1 with e | newCtxs <;> simp only [hrb] at hb
        · rcases List.mem_append.mp hb with hb' | hb'
          · exact build_contexts_trace adapter designers colors tops others
              filtered em _ r b hb'
          · exact ih responses.tail ctxs (acceptItems target rdr accum items)
              _ b hb'
        · rcases List.mem_append.mp hb with hb' | hb'
          · exact build_contexts_trace adapter designers colors tops others
              filtered em _ r b hb'
          · exact ih responses.tail newCtxs (acceptItems target rdr accum items)
              _ b hb'

/-- C5: one generation call consults `should_explore` exactly once when
attribute preferences are loaded and never otherwise (the batch then defaults
to exploit), as observed through the decision counters, and every sampling
context built during the call — the initial batch and any contexts rebuilt to
cover a retry shortfall — is drawn under that one batch-level explore/exploit
flag. -/
theorem single_batch_explore_decision
    (adapter : PreferenceAdapter) (num_prompts : Nat) (renderer : String)
    (designers : List Designer) (colors : List Color) (tops others : List Garment)
    (prompt_structures : List PromptStructure)
    (llm_client : Option (List (Option (List PromptItem)))) (r grng : Rng)
    (hd : designers ≠ []) (hc : colors ≠ [])
    (hf : prompt_structures.filter (fun s => s.renderer == renderer) ≠ []) :
    ((generate_prompts_with_llm adapter num_prompts renderer designers colors
        tops others prompt_structures llm_client r grng).adapter.exploration_count
      + (generate_prompts_with_llm adapter num_prompts renderer designers colors
        tops others prompt_structures llm_client r grng).adapter.exploitation_count
      = adapter.exploration_count + adapter.exploitation_count
        + (if adapter.has_preferences then 1 else 0))
    ∧ (∀ b ∈ (generate_prompts_with_llm adapter num_prompts renderer designers
        colors tops others prompt_structures llm_client r grng).trace,
      b = (generate_prompts_with_llm adapter num_prompts renderer designers
        colors tops others prompt_structures llm_client r grng).explore_mode) := by
  have hfe : (prompt_structures.filter (fun s => s.renderer == renderer)).isEmpty
      = false := by
    rcases hl : prompt_structures.filter (fun s => s.renderer == renderer) with
      _ | ⟨a, as⟩
    · exact absurd hl hf
    · rw [hl]
      rfl
  have hde : designers.isEmpty = false := by
    rcases hl : designers with _ | ⟨a, as⟩
    · exact absurd hl hd
    · rfl
  have hce : colors.isEmpty = false := by
    rcases hl : colors with _ | ⟨a, as⟩
    · exact absurd hl hc
    · rfl
  simp only [generate_prompts_with_llm]
  rw [if_neg (by simp [hfe]), if_neg (by simp [hde, hce])]
  rcases hb : (build_contexts (batchDecision adapter r).2.1 designers colors tops
      others (prompt_structures.filter (fun s => s.renderer == renderer))
      (batchDecision adapter r).1 num_prompts (batchDecision adapter r).2.2).1 with
    e | ctxs
  · simp only [hb]
    refine ⟨batchDecision_counter_sum adapter r, ?_⟩
    intro b hbm
    exact build_contexts_trace _ designers colors tops others _ _ num_prompts
      _ b hbm
  · simp only [hb]
    cases llm_client with
    | none =>
      refine ⟨batchDecision_counter_sum adapter r, ?_⟩
      intro b hbm
      exact build_contexts_trace _ designers colors tops others _ _ num_prompts
        _ b hbm
    | some responses =>
      refine ⟨batchDecision_counter_sum adapter r, ?_⟩
      intro b hbm
      rcases List.mem_append.mp hbm with hbm' | hbm'
      · exact build_contexts_trace _ designers colors tops others _ _ num_prompts
          _ b hbm'
      · exact llmLoop_trace _ num_prompts renderer designers colors tops others
          _ _ 2 responses ctxs [] _ b hbm'

/-- C5 witness: a fresh store has no preferences, so a concrete local-path
call leaves both counters untouched and draws its one context under the
batch's exploit flag. -/
theorem single_batch_explore_decision_witness :
    (generate_prompts_with_llm PreferenceAdapter.init 1 "Recraft"
        [designerFixture] [colorFixture] [topFixture] [] [structureFixture]
        none ⟨[0], [0, 0, 0]⟩ ⟨[], []⟩).adapter.exploration_count
      + (generate_prompts_with_llm PreferenceAdapter.init 1 "Recraft"
        [designerFixture] [colorFixture] [topFixture] [] [structureFixture]
        none ⟨[0], [0, 0, 0]⟩ ⟨[], []⟩).adapter.exploitation_count
      = PreferenceAdapter.init.exploration_count
        + PreferenceAdapter.init.exploitation_count
        + (if PreferenceAdapter.init.has_preferences then 1 else 0) :=
  (single_batch_explore_decision PreferenceAdapter.init 1 "Recraft"
    [designerFixture] [colorFixture] [topFixture] [] [structureFixture]
    none ⟨[0], [0, 0, 0]⟩ ⟨[], []⟩ (by decide) (by decide) (by decide)).1
